import Mathlib

/-!
# Verification of the GitHub status monitor
  (examples/servers/simple-tool/mcp_simple_tool/server.py)

Shallow embedding of the monitor's data model and operations:

* `Payload` models the parsed JSON body returned by the status endpoint;
  each field that the code reads with `.get(key, default)` is an `Option`.
  Array contents are never inspected by the code (only `len` is taken),
  so the incident/maintenance arrays are modelled as `List Unit`.
* `FetchResult` models the outcome of `check_status`: either a parsed
  payload, or an exception (`FetchError`) raised by the HTTP layer
  (`raise_for_status` → HTTP status error, transport/timeout failures).
* `get_current_status` embeds `GitHubStatusMonitor.get_current_status`:
  the success branch mirrors the five `.get(...)` extractions; the
  `except Exception` branch mirrors the synthesized error dict, with the
  caller-visible timestamp `datetime.now().isoformat()` passed in as `now`.
* `evaluate_alerts` embeds the two alert checks in the body of
  `monitor_github_status` (the `not in ["none", "minor"]` check and the
  `incidents > 0` check), in program order.
* `loopStep` / `applyEvent` / `run` give a small-step semantics of the
  polling loop `monitor_github_status` interleaved with the
  `start_monitoring` / `stop_monitoring` handler effects on the shared
  `GitHubStatusMonitor` fields.  Steps are atomic exactly between the
  loop's suspension points (the awaited fetch and the awaited sleep).
* `github_status_tool` embeds the `@app.call_tool()` handler; the
  `json.dumps` pretty-printing of a summary is abstracted by the
  `Content.statusText` constructor carrying the summary value.
-/

/-- The `"status"` sub-object of the payload; `indicator` and `description`
are read with `.get(..., default)`. -/
structure StatusObj where
  indicator : Option String := none
  description : Option String := none
  deriving Repr, DecidableEq

/-- The `"page"` sub-object of the payload; `updated_at` is read with
`.get("updated_at", "unknown")`. -/
structure PageObj where
  updated_at : Option String := none
  deriving Repr, DecidableEq

/-- Parsed response body of the status endpoint.  Fields mirror the keys the
code reads: `status`, `page`, `incidents`, `scheduled_maintenances`; a `none`
models a missing key (the code supplies `{}` / `[]` defaults via `.get`).
Array elements are never inspected (only `len(...)` is applied), hence
`List Unit`. -/
structure Payload where
  status : Option StatusObj := none
  page : Option PageObj := none
  incidents : Option (List Unit) := none
  scheduled_maintenances : Option (List Unit) := none
  deriving Repr, DecidableEq

/-- An exception raised by `check_status`: `raise_for_status` on a
non-success HTTP code, or an httpx transport/timeout error.  `cause` is the
text `str(e)` produces for the exception. -/
inductive FetchError where
  | httpStatus (code : Nat) (cause : String)
  | transport (cause : String)
  deriving Repr, DecidableEq

/-- `str(e)` for the exception. -/
def FetchError.str : FetchError → String
  | .httpStatus _ cause => cause
  | .transport cause => cause

/-- Outcome of `await self.check_status()` as observed by
`get_current_status`: a parsed payload, or a raised exception. -/
inductive FetchResult where
  | ok (payload : Payload)
  | err (e : FetchError)
  deriving Repr, DecidableEq

/-- The dict returned by `get_current_status` (keys `status`, `description`,
`updated_at`, `incidents`, `maintenances`). -/
structure StatusSummary where
  status : String
  description : String
  updated_at : String
  incidents : Nat
  maintenances : Nat
  deriving Repr, DecidableEq

/-- Embeds `GitHubStatusMonitor.get_current_status`.  On a parsed payload it
builds the summary with the code's `.get` defaults; on any exception from
the fetch it returns the synthesized error dict.  `now` is the value of
`datetime.now().isoformat()` at the time of the call. -/
def get_current_status (fr : FetchResult) (now : String) : StatusSummary :=
  match fr with
  | .ok status_data =>
      { status := ((status_data.status).getD {}).indicator.getD "unknown"
        description := ((status_data.status).getD {}).description.getD "No description"
        updated_at := ((status_data.page).getD {}).updated_at.getD "unknown"
        incidents := ((status_data.incidents).getD []).length
        maintenances := ((status_data.scheduled_maintenances).getD []).length }
  | .err e =>
      { status := "error"
        description := "Failed to fetch status: " ++ e.str
        updated_at := now
        incidents := 0
        maintenances := 0 }

/-- An alert message printed by the loop body of `monitor_github_status`:
the "GitHub Status Alert" line (status not in `["none", "minor"]`) or the
"GitHub Incidents Alert" line (`incidents > 0`). -/
inductive Alert where
  | statusDegraded (indicator description : String)
  | activeIncidents (count : Nat)
  deriving Repr, DecidableEq

/-- The alert checks performed by the loop body of `monitor_github_status`
on a fresh summary, in program order: first the
`current_status["status"] not in ["none", "minor"]` check, then the
`current_status["incidents"] > 0` check. -/
def evaluate_alerts (s : StatusSummary) : List Alert :=
  (if s.status ∈ (["none", "minor"] : List String) then []
   else [Alert.statusDegraded s.status s.description])
  ++ (if s.incidents > 0 then [Alert.activeIncidents s.incidents] else [])

/-- The mutable fields of the global `GitHubStatusMonitor` instance that the
loop and the tool handler share. -/
structure MonitorState where
  last_status : Option StatusSummary := none
  monitoring : Bool := false
  check_interval : Nat := 300
  deriving Repr, DecidableEq

/-! ## Small-step semantics of the polling loop

`monitor_github_status` runs on the asyncio event loop; other code (the
tool handler) can only interleave at its `await` points: the fetch inside
`get_current_status` and the `asyncio.sleep`.  The program counter below
has one position per suspension point:

* `atCheck`  — about to evaluate the `while github_monitor.monitoring` test;
* `atFetch`  — the `await`ed fetch is in flight; the next loop step makes it
  complete with the next outcome of the schedule, and then runs the rest of
  the iteration body (alert checks, `last_status` write, reading
  `check_interval` for the upcoming sleep) atomically, since that code has
  no `await` in it;
* `atSleep d` — `await asyncio.sleep(d)` is in flight;
* `done`   — the `while` test failed and the coroutine returned.

The `except Exception` branch of the loop (print + `asyncio.sleep(60)`) is
not reachable from a fetch failure: `get_current_status` catches every
exception of the fetch itself and returns the error summary, and no other
statement of the `try` block raises, so the semantics has no transition
into the 60-second sleep. -/
inductive LoopPC where
  | atCheck
  | atFetch
  | atSleep (secs : Nat)
  | done
  deriving Repr, DecidableEq

/-- Observable actions of a run, in chronological order. -/
inductive Act where
  | fetched (s : StatusSummary)
  | alert (a : Alert)
  | stored (s : StatusSummary)
  | slept (secs : Nat)
  | stopped
  | started (interval : Nat)
  | exitedLoop
  deriving Repr, DecidableEq

/-- Whole-system state: the shared monitor fields, the polling coroutine's
program counter, the schedule of outcomes the fetches will produce, and the
chronological log of actions. -/
structure Sys where
  mon : MonitorState
  pc : LoopPC
  fetches : List FetchResult
  log : List Act
  deriving Repr, DecidableEq

/-- One step of the polling coroutine `monitor_github_status`, from one
suspension point to the next.  `now` is the timestamp an error summary would
carry. -/
def loopStep (s : Sys) (now : String) : Sys :=
  match s.pc with
  | .done => s
  | .atCheck =>
      if s.mon.monitoring then { s with pc := .atFetch }
      else { s with pc := .done, log := s.log ++ [Act.exitedLoop] }
  | .atFetch =>
      match s.fetches with
      | [] => s
      | fr :: rest =>
          let cur := get_current_status fr now
          { mon := { s.mon with last_status := some cur }
            pc := .atSleep s.mon.check_interval
            fetches := rest
            log := s.log ++ [Act.fetched cur]
                   ++ (evaluate_alerts cur).map Act.alert
                   ++ [Act.stored cur] }
  | .atSleep d => { s with pc := .atCheck, log := s.log ++ [Act.slept d] }

/-- External events interleaved with the loop: `tick` lets the polling
coroutine take its next step; `stopCmd` and `startCmd` are the shared-state
effects of the `stop_monitoring` / `start_monitoring` handler branches
(`startCmd` also spawns a task; multiplicity of tasks is modelled separately
by `ServerState.spawned`, this machine follows one coroutine). -/
inductive Event where
  | tick
  | stopCmd
  | startCmd (interval : Nat)
  deriving Repr, DecidableEq

/-- Apply one event to the system. -/
def applyEvent (s : Sys) (now : String) : Event → Sys
  | .tick => loopStep s now
  | .stopCmd =>
      { s with mon := { s.mon with monitoring := false }
               log := s.log ++ [Act.stopped] }
  | .startCmd n =>
      { s with mon := { s.mon with monitoring := true, check_interval := n }
               log := s.log ++ [Act.started n] }

/-- Run a list of events. -/
def run (s : Sys) (now : String) : List Event → Sys
  | [] => s
  | e :: es => run (applyEvent s now e) now es

/-! ## The tool handler `github_status_tool` -/

/-- A content block returned by the handler.  `statusText s` stands for the
`TextContent` whose text is `"GitHub Status:\n"` followed by
`json.dumps(s, indent=2)` (the pretty-printing itself is abstracted; the
carried value is the summary). -/
inductive Content where
  | statusText (s : StatusSummary)
  | text (msg : String)
  deriving Repr, DecidableEq

/-- State of the server process relevant to the handler: the shared monitor
fields and the number of `monitor_github_status` tasks created so far by
`asyncio.create_task`. -/
structure ServerState where
  mon : MonitorState
  spawned : Nat := 0
  deriving Repr, DecidableEq

/-- Embeds the `@app.call_tool()` handler `github_status_tool`.
`arguments` is `arguments.get("interval", 300)`'s input: `some n` when the
caller supplied `interval = n`, `none` when omitted.  `fr`/`now` are the
fetch outcome and timestamp a `check_github_status` call would observe.
Returns the handler's result (`Except.error` models the raised
`ValueError`) and the new server state. -/
def github_status_tool (name : String) (arguments : Option Nat)
    (st : ServerState) (fr : FetchResult) (now : String) :
    Except String (List Content) × ServerState :=
  if name = "check_github_status" then
    let status := get_current_status fr now
    (Except.ok [Content.statusText status], st)
  else if name = "start_monitoring" then
    let interval := arguments.getD 300
    (Except.ok [Content.text
        ("Started GitHub status monitoring with " ++ toString interval ++ "s interval")],
     { mon := { st.mon with check_interval := interval, monitoring := true }
       spawned := st.spawned + 1 })
  else if name = "stop_monitoring" then
    (Except.ok [Content.text "Stopped GitHub status monitoring"],
     { st with mon := { st.mon with monitoring := false } })
  else
    (Except.error ("Unknown tool: " ++ name), st)

/-- Modelled from the spec: the tool-dispatch layer
(`mcp.server.lowlevel.Server`, part of this repository but not under the
provided sources) validates the caller-supplied arguments of
`start_monitoring` against the declared input schema
(`interval`: integer, `minimum: 10`) before the handler runs, and rejects
the call with a validation error otherwise, per the spec's
"validates `interval` >= 10 if present (reject with a validation error
otherwise)". -/
def call_tool_validated (name : String) (arguments : Option Nat)
    (st : ServerState) (fr : FetchResult) (now : String) :
    Except String (List Content) × ServerState :=
  if name = "start_monitoring" then
    match arguments with
    | some n =>
        if n < 10 then
          (Except.error "validation error: interval must be at least 10", st)
        else github_status_tool name arguments st fr now
    | none => github_status_tool name arguments st fr now
  else github_status_tool name arguments st fr now

/-! ## Trace helpers and concrete fixtures -/

/-- Is the action a completed fetch? -/
def isFetch : Act → Bool
  | Act.fetched _ => true
  | _ => false

/-- Is the action a completed sleep? -/
def isSleep : Act → Bool
  | Act.slept _ => true
  | _ => false

/-- Is the action the Stop command taking effect? -/
def isStop : Act → Bool
  | Act.stopped => true
  | _ => false

/-- Is the action the loop exiting? -/
def isExit : Act → Bool
  | Act.exitedLoop => true
  | _ => false

/-- Number of completed fetches in a log. -/
def numFetches (l : List Act) : Nat := l.countP isFetch

/-- Number of sleeps the loop completed after the Stop command took effect
and before it exited. -/
def sleepsAfterStop (l : List Act) : Nat :=
  ((((l.dropWhile fun a => ! isStop a).drop 1).takeWhile fun a => ! isExit a).countP isSleep)

/-- Fetches the polling coroutine can still complete without re-passing the
`while` test: one when a fetch is in flight, zero otherwise. -/
def allowedFetches : LoopPC → Nat
  | .atFetch => 1
  | _ => 0

/-- The payload of the spec's end-to-end scenario A: all fields present,
indicator `"none"`, empty incident and maintenance arrays. -/
def okPayload : Payload :=
  { status := some { indicator := some "none"
                     description := some "All Systems Operational" }
    page := some { updated_at := some "2024-01-01T00:00:00Z" }
    incidents := some []
    scheduled_maintenances := some [] }

/-- A payload whose remote `status.indicator` field is itself the string
`"error"` and which carries two incidents; the code copies the indicator
through unvalidated. -/
def errorPayload : Payload :=
  { status := some { indicator := some "error"
                     description := some "provider-reported error" }
    page := some { updated_at := some "2024-01-01T00:00:00Z" }
    incidents := some [(), ()]
    scheduled_maintenances := some [] }

/-- Server state at process start: fresh `GitHubStatusMonitor`, no task
spawned yet. -/
def initialServer : ServerState := { mon := {} }

/-- System at process start whose first fetch will fail with a transport
error. -/
def sysFail : Sys :=
  { mon := {}
    pc := LoopPC.atCheck
    fetches := [FetchResult.err (FetchError.transport "boom")]
    log := [] }

/-- System at process start whose first fetch will succeed with the
scenario-A payload. -/
def sysStop : Sys :=
  { mon := {}
    pc := LoopPC.atCheck
    fetches := [FetchResult.ok okPayload]
    log := [] }

/-- System with monitoring running at interval 30 and a transport-failing
fetch in flight. -/
def sysInFetch : Sys :=
  { mon := { monitoring := true, check_interval := 30 }
    pc := LoopPC.atFetch
    fetches := [FetchResult.err (FetchError.transport "down")]
    log := [] }

/-- System whose monitoring flag has just been cleared while the loop is at
the while test. -/
def sysCleared : Sys :=
  { mon := { monitoring := false, check_interval := 30 }
    pc := LoopPC.atCheck
    fetches := []
    log := [] }

/-! ## Theorems -/

/-- Helper: once the monitoring flag is false, loop steps can only complete
the in-flight fetch (if any) and then exit; the number of completed fetches
plus the fetches still allowed by the program counter is invariant, and the
flag stays false. -/
theorem run_ticks_no_new_fetch (now : String) :
    ∀ (evs : List Event), (∀ e ∈ evs, e = Event.tick) →
      ∀ (s : Sys), s.mon.monitoring = false →
        numFetches (run s now evs).log + allowedFetches (run s now evs).pc
            = numFetches s.log + allowedFetches s.pc ∧
        (run s now evs).mon.monitoring = false := by
  intro evs
  induction evs with
  | nil => exact fun _ s hm => ⟨rfl, hm⟩
  | cons e es ih =>
      intro hall s hm
      have he : e = Event.tick := hall e (List.mem_cons_self _ _)
      subst he
      have hstep : numFetches (loopStep s now).log + allowedFetches (loopStep s now).pc
            = numFetches s.log + allowedFetches s.pc
          ∧ (loopStep s now).mon.monitoring = false := by
        cases hpc : s.pc with
        | done => simp [loopStep, hpc, hm]
        | atCheck =>
            simp [loopStep, hpc, hm, numFetches, List.countP_append,
              List.countP_cons, isFetch, allowedFetches]
        | atFetch =>
            cases hf : s.fetches with
            | nil => simp [loopStep, hpc, hf, hm]
            | cons fr rest =>
                simp [loopStep, hpc, hf, hm, numFetches, List.countP_append,
                  List.countP_cons, List.countP_map, isFetch, allowedFetches,
                  Function.comp]
        | atSleep d =>
            simp [loopStep, hpc, hm, numFetches, List.countP_append,
              List.countP_cons, isFetch, allowedFetches]
      have hrest := ih (fun e hmem => hall e (List.mem_cons_of_mem _ hmem))
        (loopStep s now) hstep.2
      refine ⟨?_, hrest.2⟩
      calc numFetches (run s now (Event.tick :: es)).log
              + allowedFetches (run s now (Event.tick :: es)).pc
          = numFetches (run (loopStep s now) now es).log
              + allowedFetches (run (loopStep s now) now es).pc := rfl
        _ = numFetches (loopStep s now).log + allowedFetches (loopStep s now).pc :=
            hrest.1
        _ = numFetches s.log + allowedFetches s.pc := hstep.1

/-- C1: `get_current_status` (CheckNow) is total — it returns a
`StatusSummary` for every fetch outcome by construction — and on any fetch
failure the summary has indicator `"error"`, description
`"Failed to fetch status: <cause>"`, `updated_at` the current time, and
zero incident and maintenance counts. -/
theorem checkNow_total_on_fetch_error (e : FetchError) (now : String) :
    get_current_status (FetchResult.err e) now =
      { status := "error"
        description := "Failed to fetch status: " ++ e.str
        updated_at := now
        incidents := 0
        maintenances := 0 } := rfl

/-- C2 counterexample: with the configured interval 30 and a transport
failure on the first scheduled tick, the loop sleeps the configured 30
seconds before the next tick — never the claimed fixed 60-second retry
delay.  (`get_current_status` absorbs every fetch exception, so the loop's
60-second error path is unreachable from a fetch failure.) -/
theorem failure_tick_sleeps_interval_not_60 :
    Act.slept 30 ∈
      (run sysFail "T" [Event.startCmd 30, Event.tick, Event.tick, Event.tick]).log ∧
    Act.slept 60 ∉
      (run sysFail "T" [Event.startCmd 30, Event.tick, Event.tick, Event.tick]).log := by
  decide

/-- C2 amended: after a fetch failure inside a scheduled tick, monitoring
does not stop and the synthesized error summary is recorded into
`last_status`, but the loop then waits the configured `check_interval` —
the same delay as after a success — not a fixed 60-second retry delay. -/
theorem failure_tick_keeps_monitoring_sleeps_interval (s : Sys) (now : String)
    (e : FetchError) (rest : List FetchResult)
    (hpc : s.pc = LoopPC.atFetch) (hf : s.fetches = FetchResult.err e :: rest) :
    (loopStep s now).mon.monitoring = s.mon.monitoring ∧
    (loopStep s now).mon.last_status = some (get_current_status (FetchResult.err e) now) ∧
    (loopStep s now).pc = LoopPC.atSleep s.mon.check_interval := by
  simp [loopStep, hpc, hf]

/-- Witness for C2 amended at a concrete in-flight failing fetch. -/
theorem failure_tick_keeps_monitoring_sleeps_interval_witness :
    (loopStep sysInFetch "T").mon.monitoring = sysInFetch.mon.monitoring ∧
    (loopStep sysInFetch "T").mon.last_status
        = some (get_current_status (FetchResult.err (FetchError.transport "down")) "T") ∧
    (loopStep sysInFetch "T").pc = LoopPC.atSleep sysInFetch.mon.check_interval :=
  failure_tick_keeps_monitoring_sleeps_interval sysInFetch "T"
    (FetchError.transport "down") [] rfl rfl

/-- C3 (validation modelled from the spec, see `call_tool_validated`): a
`start_monitoring` call with a supplied interval below 10 is rejected with a
validation error, the handler is not executed, and the server state — in
particular `monitoring` and the number of spawned loops — is unchanged. -/
theorem start_monitoring_rejects_small_interval (n : Nat) (hn : n < 10)
    (st : ServerState) (fr : FetchResult) (now : String) :
    (call_tool_validated "start_monitoring" (some n) st fr now).1 =
        Except.error "validation error: interval must be at least 10" ∧
    (call_tool_validated "start_monitoring" (some n) st fr now).2 = st ∧
    (call_tool_validated "start_monitoring" (some n) st fr now).2.mon.monitoring
        = st.mon.monitoring ∧
    (call_tool_validated "start_monitoring" (some n) st fr now).2.spawned
        = st.spawned := by
  simp [call_tool_validated, hn]

/-- Witness for C3 at scenario C's `interval = 5`. -/
theorem start_monitoring_rejects_small_interval_witness :
    (call_tool_validated "start_monitoring" (some 5) initialServer
        (FetchResult.ok okPayload) "T").1 =
        Except.error "validation error: interval must be at least 10" ∧
    (call_tool_validated "start_monitoring" (some 5) initialServer
        (FetchResult.ok okPayload) "T").2 = initialServer ∧
    (call_tool_validated "start_monitoring" (some 5) initialServer
        (FetchResult.ok okPayload) "T").2.mon.monitoring
        = initialServer.mon.monitoring ∧
    (call_tool_validated "start_monitoring" (some 5) initialServer
        (FetchResult.ok okPayload) "T").2.spawned = initialServer.spawned :=
  start_monitoring_rejects_small_interval 5 (by decide) initialServer
    (FetchResult.ok okPayload) "T"

/-- C4: the `start_monitoring` branch of `github_status_tool` executes
`asyncio.create_task(monitor_github_status())` unconditionally, so a second
`start_monitoring` call while already running spawns a second concurrent
polling loop: starting twice from the initial state leaves two spawned loop
tasks, not one. -/
theorem double_start_spawns_two_loops :
    ((github_status_tool "start_monitoring" (some 60)
        (github_status_tool "start_monitoring" (some 60) initialServer
            (FetchResult.ok okPayload) "T").2
        (FetchResult.ok okPayload) "T").2).spawned = 2 ∧
    initialServer.spawned = 0 := by
  constructor <;> rfl

/-- C5 counterexample: the `check_github_status` branch (CheckNow) does not
write `last_status`; after one successful on-demand check from the initial
state, `last_status` is still unset. -/
theorem check_tool_leaves_lastSummary_unset :
    initialServer.mon.last_status = none ∧
    (github_status_tool "check_github_status" none initialServer
        (FetchResult.ok okPayload) "T").2.mon.last_status = none := by
  constructor <;> rfl

/-- C5 amended: a `check_github_status` call returns the normalized summary
of its fetch but leaves the server state — including `last_status` —
untouched; `last_status` is written only by loop ticks, so it is set after
at least one loop tick has completed its fetch. -/
theorem checkNow_returns_summary_only_loop_writes (st : ServerState)
    (args : Option Nat) (fr : FetchResult) (now : String)
    (s : Sys) (fr2 : FetchResult) (rest : List FetchResult)
    (hpc : s.pc = LoopPC.atFetch) (hf : s.fetches = fr2 :: rest) :
    (github_status_tool "check_github_status" args st fr now).1 =
        Except.ok [Content.statusText (get_current_status fr now)] ∧
    (github_status_tool "check_github_status" args st fr now).2 = st ∧
    (loopStep s now).mon.last_status = some (get_current_status fr2 now) := by
  refine ⟨rfl, rfl, ?_⟩
  simp [loopStep, hpc, hf]

/-- Witness for C5 amended at a concrete check and a concrete loop tick. -/
theorem checkNow_returns_summary_only_loop_writes_witness :
    (github_status_tool "check_github_status" none initialServer
        (FetchResult.ok okPayload) "T").1 =
        Except.ok [Content.statusText
          (get_current_status (FetchResult.ok okPayload) "T")] ∧
    (github_status_tool "check_github_status" none initialServer
        (FetchResult.ok okPayload) "T").2 = initialServer ∧
    (loopStep sysInFetch "T").mon.last_status
        = some (get_current_status (FetchResult.err (FetchError.transport "down")) "T") :=
  checkNow_returns_summary_only_loop_writes initialServer none
    (FetchResult.ok okPayload) "T" sysInFetch
    (FetchResult.err (FetchError.transport "down")) [] rfl rfl

/-- C6: normalization of a successfully fetched payload is tolerant — a
missing status object or indicator yields `"unknown"`, a missing
description yields `"No description"`, a missing page or timestamp yields
`"unknown"`, missing incident/maintenance arrays count as 0, and present
arrays count as their lengths (contents are never inspected: the arrays'
element type is opaque to the code). -/
theorem get_current_status_tolerant_defaults (d : Payload) (now : String) :
    (d.status = none →
        (get_current_status (FetchResult.ok d) now).status = "unknown" ∧
        (get_current_status (FetchResult.ok d) now).description = "No description") ∧
    (∀ o, d.status = some o → o.indicator = none →
        (get_current_status (FetchResult.ok d) now).status = "unknown") ∧
    (∀ o, d.status = some o → o.description = none →
        (get_current_status (FetchResult.ok d) now).description = "No description") ∧
    (∀ o i, d.status = some o → o.indicator = some i →
        (get_current_status (FetchResult.ok d) now).status = i) ∧
    (d.page = none →
        (get_current_status (FetchResult.ok d) now).updated_at = "unknown") ∧
    (∀ p, d.page = some p → p.updated_at = none →
        (get_current_status (FetchResult.ok d) now).updated_at = "unknown") ∧
    (d.incidents = none →
        (get_current_status (FetchResult.ok d) now).incidents = 0) ∧
    (∀ l, d.incidents = some l →
        (get_current_status (FetchResult.ok d) now).incidents = l.length) ∧
    (d.scheduled_maintenances = none →
        (get_current_status (FetchResult.ok d) now).maintenances = 0) ∧
    (∀ l, d.scheduled_maintenances = some l →
        (get_current_status (FetchResult.ok d) now).maintenances = l.length) := by
  refine ⟨?_, ?_, ?_, ?_, ?_, ?_, ?_, ?_, ?_, ?_⟩ <;>
    (intros; simp_all [get_current_status])

/-- Witness for C6 at the fully missing payload. -/
theorem get_current_status_tolerant_defaults_witness :
    (get_current_status (FetchResult.ok {}) "T").status = "unknown" ∧
    (get_current_status (FetchResult.ok {}) "T").description = "No description" :=
  (get_current_status_tolerant_defaults {} "T").1 rfl

/-- C7: for a summary evaluated by the loop, the StatusDegraded alert
(carrying the summary's indicator and description) is emitted iff the
indicator is neither `"none"` nor `"minor"`, and the ActiveIncidents alert
(carrying the incident count) is emitted iff the incident count is
positive, independently of the indicator. -/
theorem evaluate_alerts_iff (s : StatusSummary) :
    (Alert.statusDegraded s.status s.description ∈ evaluate_alerts s ↔
        (s.status ≠ "none" ∧ s.status ≠ "minor")) ∧
    (Alert.activeIncidents s.incidents ∈ evaluate_alerts s ↔ 0 < s.incidents) := by
  constructor
  · by_cases h1 : s.status = "none" <;> by_cases h2 : s.status = "minor" <;>
      by_cases h3 : 0 < s.incidents <;> simp_all [evaluate_alerts]
  · by_cases h1 : s.status = "none" <;> by_cases h2 : s.status = "minor" <;>
      by_cases h3 : 0 < s.incidents <;> simp_all [evaluate_alerts]

/-- C8 counterexample: a successful fetch of a payload whose remote
`status.indicator` is the string `"error"` produces a summary with
indicator `"error"` that was not produced by a failed fetch, and whose
incident count is 2, not 0 — so indicator `"error"` does not imply a failed
fetch with zero counts. -/
theorem error_indicator_without_failed_fetch :
    ¬ ((get_current_status (FetchResult.ok errorPayload) "T").status = "error" →
       (get_current_status (FetchResult.ok errorPayload) "T").incidents = 0) := by
  decide

/-- C8 amended: a failed fetch always yields indicator `"error"`, zero
incident and maintenance counts, and a description carrying the failure
cause; a successful fetch yields indicator `"error"` exactly when the
remote payload itself reports indicator `"error"` (the code copies the
indicator through unvalidated), in which case all fields are still sourced
from the payload. -/
theorem error_summary_characterization (fr : FetchResult) (now : String) :
    (∀ e, fr = FetchResult.err e →
        (get_current_status fr now).status = "error" ∧
        (get_current_status fr now).description = "Failed to fetch status: " ++ e.str ∧
        (get_current_status fr now).incidents = 0 ∧
        (get_current_status fr now).maintenances = 0) ∧
    (∀ d, fr = FetchResult.ok d →
        ((get_current_status fr now).status = "error" ↔
            ((d.status).getD {}).indicator = some "error")) := by
  constructor
  · intro e he; subst he; simp [get_current_status]
  · intro d hd; subst hd
    cases hind : ((d.status).getD {}).indicator with
    | none => simp [get_current_status, hind]
    | some i => simp [get_current_status, hind]

/-- Witness for C8 amended at a concrete failed fetch. -/
theorem error_summary_characterization_witness :
    (get_current_status (FetchResult.err (FetchError.transport "boom")) "T").status
        = "error" ∧
    (get_current_status (FetchResult.err (FetchError.transport "boom")) "T").description
        = "Failed to fetch status: " ++ (FetchError.transport "boom").str ∧
    (get_current_status (FetchResult.err (FetchError.transport "boom")) "T").incidents
        = 0 ∧
    (get_current_status (FetchResult.err (FetchError.transport "boom")) "T").maintenances
        = 0 :=
  (error_summary_characterization (FetchResult.err (FetchError.transport "boom")) "T").1
    (FetchError.transport "boom") rfl

/-- C9 counterexample: when Stop takes effect while a poll is in flight,
the loop finishes the poll and then still sleeps a full configured interval
before observing the cleared flag and exiting — at least one sleep occurs
between Stop taking effect and loop exit, so the loop does not observe the
cleared flag before sleeping again. -/
theorem stop_then_sleep_before_exit :
    0 < sleepsAfterStop
        (run sysStop "T" [Event.startCmd 30, Event.tick, Event.stopCmd,
                          Event.tick, Event.tick, Event.tick]).log := by
  decide

/-- C9 amended: Stop sets `monitoring` to false without disturbing the
in-flight poll; once the flag is false, further loop steps complete at most
the in-flight fetch (never a new one, measured by `numFetches` plus the
`allowedFetches` of the program counter); and when the loop reaches the
while test with the flag cleared it exits immediately — but the cleared
flag is observed only at the while test, after the current iteration's full
configured sleep, not before sleeping again. -/
theorem stop_cooperative (s : Sys) (now : String) (evs : List Event)
    (hticks : ∀ e ∈ evs, e = Event.tick) :
    ((applyEvent s now Event.stopCmd).mon.monitoring = false ∧
     (applyEvent s now Event.stopCmd).pc = s.pc ∧
     (applyEvent s now Event.stopCmd).fetches = s.fetches) ∧
    (s.mon.monitoring = false →
      numFetches (run s now evs).log + allowedFetches (run s now evs).pc
          = numFetches s.log + allowedFetches s.pc) ∧
    (s.mon.monitoring = false → s.pc = LoopPC.atCheck →
      loopStep s now = { s with pc := LoopPC.done, log := s.log ++ [Act.exitedLoop] }) := by
  refine ⟨⟨rfl, rfl, rfl⟩, ?_, ?_⟩
  · intro hm; exact (run_ticks_no_new_fetch now evs hticks s hm).1
  · intro hm hpc; simp [loopStep, hpc, hm]

/-- Witness for C9 amended at a concrete cleared state and one tick. -/
theorem stop_cooperative_witness :
    ((applyEvent sysCleared "T" Event.stopCmd).mon.monitoring = false ∧
     (applyEvent sysCleared "T" Event.stopCmd).pc = sysCleared.pc ∧
     (applyEvent sysCleared "T" Event.stopCmd).fetches = sysCleared.fetches) ∧
    (sysCleared.mon.monitoring = false →
      numFetches (run sysCleared "T" [Event.tick]).log
          + allowedFetches (run sysCleared "T" [Event.tick]).pc
          = numFetches sysCleared.log + allowedFetches sysCleared.pc) ∧
    (sysCleared.mon.monitoring = false → sysCleared.pc = LoopPC.atCheck →
      loopStep sysCleared "T"
        = { sysCleared with pc := LoopPC.done,
                            log := sysCleared.log ++ [Act.exitedLoop] }) :=
  stop_cooperative sysCleared "T" [Event.tick] (by decide)

/-- C10: a fetch failure during a loop tick yields the `"error"` summary,
which goes through the same alert evaluation as a success; `"error"` is
neither `"none"` nor `"minor"`, so a StatusDegraded alert is emitted, and
the error summary is stored into `last_status` just like a successful
one. -/
theorem loop_failure_emits_degraded_and_stores (s : Sys) (now : String)
    (e : FetchError) (rest : List FetchResult)
    (hpc : s.pc = LoopPC.atFetch) (hf : s.fetches = FetchResult.err e :: rest) :
    (loopStep s now).mon.last_status
        = some (get_current_status (FetchResult.err e) now) ∧
    Act.alert (Alert.statusDegraded "error" ("Failed to fetch status: " ++ e.str))
        ∈ (loopStep s now).log := by
  simp [loopStep, hpc, hf, get_current_status, evaluate_alerts]

/-- Witness for C10 at a concrete in-flight failing fetch. -/
theorem loop_failure_emits_degraded_and_stores_witness :
    (loopStep sysInFetch "T").mon.last_status
        = some (get_current_status (FetchResult.err (FetchError.transport "down")) "T") ∧
    Act.alert (Alert.statusDegraded "error"
        ("Failed to fetch status: " ++ (FetchError.transport "down").str))
        ∈ (loopStep sysInFetch "T").log :=
  loop_failure_emits_degraded_and_stores sysInFetch "T"
    (FetchError.transport "down") [] rfl rfl
